import Mathlib

/-!
Shallow embedding of the Configuration-Validator-Linter core
(`src/validator.js`, `src/rules.js`, `src/utils.js`).

Modelling conventions:
* A JavaScript runtime value is `Value`: string, number, boolean, null,
  array, or plain object.  JS numbers are modelled as `Int` (every
  number appearing in the validated claims is an integer; `NaN` only
  arises from string coercion and is modelled as `Option.none` there).
* A configuration object is an association list `Config`
  (JS object keys are unique and iterated in insertion order).
* Code that can throw a runtime `TypeError` (the bare
  `environment.toLowerCase()` call in `checkDebugInProduction`) is
  modelled in `Except String`; everything else in the engine is total.
* Regular expressions from `utils.js` are expanded: the secret-key
  patterns are substring searches (none of them is anchored), and a
  schema-supplied `pattern` constraint is modelled as an opaque total
  predicate `String → Bool` standing for `RegExp.test`.
-/

namespace CfgLint

/-- Value is the type of JavaScript values a parsed configuration can hold. -/
inductive Value where
  | str (s : String)
  | num (n : Int)
  | bool (b : Bool)
  | null
  | arr (elems : List Value)
  | obj (fields : List (String × Value))

-- Structural equality on values, modelling JS strict equality on the
-- primitive values that occur in `enum` lists.
mutual

def beqValue : Value → Value → Bool
  | Value.str a, Value.str b => a == b
  | Value.num a, Value.num b => a == b
  | Value.bool a, Value.bool b => a == b
  | Value.null, Value.null => true
  | Value.arr a, Value.arr b => beqValueList a b
  | Value.obj a, Value.obj b => beqValueFields a b
  | _, _ => false

def beqValueList : List Value → List Value → Bool
  | [], [] => true
  | a :: as, b :: bs => beqValue a b && beqValueList as bs
  | _, _ => false

def beqValueFields : List (String × Value) → List (String × Value) → Bool
  | [], [] => true
  | (ka, va) :: as, (kb, vb) :: bs => ka == kb && beqValue va vb && beqValueFields as bs
  | _, _ => false

end

-- String form of a value as used by Array.prototype.join inside the
-- enum violation message (null renders empty there).
mutual

def valueToString : Value → String
  | Value.str s => s
  | Value.num n => toString n
  | Value.bool b => if b then "true" else "false"
  | Value.null => ""
  | Value.arr l => joinValues "," l
  | Value.obj _ => "[object Object]"

def joinValues (sep : String) : List Value → String
  | [] => ""
  | [v] => valueToString v
  | v :: rest => valueToString v ++ sep ++ joinValues sep rest

end

/-- JS `toLowerCase`, character by character (ASCII case mapping; every
key and value in the validated claims is ASCII). -/
def toLowerStr (s : String) : String :=
  String.mk (s.toList.map Char.toLower)

/-- Leading/trailing-whitespace trim on character lists. -/
def trimChars (cs : List Char) : List Char :=
  ((cs.dropWhile Char.isWhitespace).reverse.dropWhile Char.isWhitespace).reverse

/-- JS `String.prototype.trim`. -/
def trimStr (s : String) : String :=
  String.mk (trimChars s.toList)

/-- JS `String.prototype.startsWith`. -/
def startsWithStr (s pre : String) : Bool :=
  pre.toList.isPrefixOf s.toList

/-- Value of an all-digit character list, `none` when empty or when a
non-digit occurs. -/
def digitsVal (cs : List Char) : Option Nat :=
  if cs.isEmpty then none
  else
    cs.foldl
      (fun acc c =>
        match acc with
        | some n => if c.isDigit then some (n * 10 + (c.toNat - 48)) else none
        | none => none)
      (some 0)

/-- Signed decimal integer parse of a (trimmed, non-empty) character
list, `none` standing for `NaN`. -/
def parseDecInt (cs : List Char) : Option Int :=
  match cs with
  | [] => none
  | c :: rest =>
      if c = Char.ofNat 45 then (digitsVal rest).map (fun n => -(n : Int))
      else if c = Char.ofNat 43 then (digitsVal rest).map (fun n => (n : Int))
      else (digitsVal cs).map (fun n => (n : Int))

/-- Configuration object: association list of key/value pairs. -/
abbrev Config := List (String × Value)

/-- Property lookup `cfg[k]`, `none` when the key is absent (JS `undefined`). -/
def lookupVal (cfg : Config) (k : String) : Option Value :=
  (List.find? (fun p => p.1 == k) cfg).map (fun p => p.2)

/-- Truthiness of a JS value (`if (v)`)—empty string, `0`, `false` and
`null`/`undefined` are falsy, arrays and objects always truthy. -/
def truthy : Value → Bool
  | Value.str s => s != ""
  | Value.num n => n != 0
  | Value.bool b => b
  | Value.null => false
  | Value.arr _ => true
  | Value.obj _ => true

/-- getType from utils.js: `Array.isArray` first, then `null`, then `typeof`. -/
def getType : Value → String
  | Value.arr _ => "array"
  | Value.null => "null"
  | Value.str _ => "string"
  | Value.num _ => "number"
  | Value.bool _ => "boolean"
  | Value.obj _ => "object"

/-- isEmpty from utils.js: null/undefined, blank string, empty array,
object without own keys. -/
def isEmpty : Value → Bool
  | Value.null => true
  | Value.str s => trimStr s == ""
  | Value.arr l => l.isEmpty
  | Value.obj fs => fs.isEmpty
  | _ => false

/-- matchesPattern from utils.js, with the compiled regular expression
modelled as a total predicate on the (already string) value. -/
def matchesPattern (value : String) (p : String → Bool) : Bool :=
  p value

/-- Substring test on character lists (regex without anchors is a search). -/
def charsHaveSub (pat : List Char) : List Char → Bool
  | [] => pat.isEmpty
  | c :: rest => (pat.isPrefixOf (c :: rest)) || charsHaveSub pat rest

/-- Substring test on strings. -/
def strContains (s pat : String) : Bool :=
  charsHaveSub pat.toList s.toList

/-- COMMON_WEAK_PASSWORDS from utils.js, verbatim. -/
def COMMON_WEAK_PASSWORDS : List String :=
  ["password", "123456", "12345678", "qwerty", "abc123", "password123",
   "admin", "letmein", "welcome", "1q2w3e4r", "monkey", "dragon",
   "master", "sunshine", "princess", "1234567890"]

/-- checkPasswordStrength from utils.js restricted to string input (its
only caller has already checked `typeof value === 'string'`; the falsy
string is `""`).  Returns `(isWeak, reason)`. -/
def checkPasswordStrength (password : String) : Bool × String :=
  if password == "" then (true, "Password must be a string")
  else if password.length < 8 then (true, "Password length less than 8 characters")
  else if COMMON_WEAK_PASSWORDS.contains (toLowerStr password) then
    (true, "Common weak password detected")
  else (false, "")

/-- Expansion of `aws[_-]?(secret|access)[_-]?key` into its finitely many
shapes as lowercase substrings. -/
def awsSecretShapes : List String :=
  ["awssecretkey", "aws_secretkey", "aws-secretkey",
   "awsaccesskey", "aws_accesskey", "aws-accesskey",
   "awssecret_key", "aws_secret_key", "aws-secret_key",
   "awsaccess_key", "aws_access_key", "aws-access_key",
   "awssecret-key", "aws_secret-key", "aws-secret-key",
   "awsaccess-key", "aws_access-key", "aws-access-key"]

/-- isSuspiciousSecretKey from utils.js.  Every source pattern is an
unanchored case-insensitive regex, so each is a substring search on the
lowercased key; `api[_-]?key`, `private[_-]?key`,
`aws[_-]?(secret|access)[_-]?key` and `sql[_-]?password` are expanded
into their finitely many literal shapes. -/
def isSuspiciousSecretKey (key : String) : Bool :=
  let k := toLowerStr key
  strContains k "password" || strContains k "secret" || strContains k "token" ||
  (strContains k "apikey" || strContains k "api_key" || strContains k "api-key") ||
  strContains k "auth" ||
  (strContains k "privatekey" || strContains k "private_key" || strContains k "private-key") ||
  awsSecretShapes.any (fun shape => strContains k shape) ||
  (strContains k "sqlpassword" || strContains k "sql_password" || strContains k "sql-password")

/-- Issue matches the objects produced by validator.js and rules.js. -/
structure Issue where
  key : String
  severity : String
  message : String
  rule : String
deriving DecidableEq, Repr

/-- FieldRule mirrors a rule object inside `schema.rules`.  `none` is an
absent (JS `undefined`) field.  `pattern` holds the `RegExp.test`
predicate of the rule's regular expression. -/
structure FieldRule where
  notEmpty : Bool := false
  type : Option String := none
  minLength : Option Nat := none
  maxLength : Option Nat := none
  pattern : Option (String → Bool) := none
  enum : Option (List Value) := none
  min : Option Int := none
  max : Option Int := none

/-- Truthiness of an optional string field (`if (rule.type)`): absent and
the empty string are falsy. -/
def strOptTruthy (o : Option String) : Bool :=
  o.getD "" != ""

/-- Truthiness of an optional numeric field (`if (rule.minLength)`):
absent and `0` are falsy. -/
def natOptTruthy (o : Option Nat) : Bool :=
  match o with
  | some n => n != 0
  | none => false

/-- Single quote character, for the interpolated messages. -/
def sq : String := String.singleton (Char.ofNat 39)

/-- Message pushed by validateValue on a type mismatch. -/
def wrongTypeMsg (actual expected : String) : String :=
  "Invalid type " ++ sq ++ actual ++ sq ++ ", expected " ++ sq ++ expected ++ sq

/-- jsIncludes models `Array.prototype.includes` on enum lists. -/
def jsIncludes (es : List Value) (v : Value) : Bool :=
  es.any (fun e => beqValue e v)

/-- String-specific section of validateValue (guard:
`rule.type === 'string' && typeof value === 'string'`). -/
def stringSection (s : String) (rule : FieldRule) : List String :=
  if rule.type == some "string" then
    (if natOptTruthy rule.minLength && s.length < rule.minLength.getD 0 then
       ["String length is " ++ toString s.length ++ ", minimum is " ++
        toString (rule.minLength.getD 0)]
     else []) ++
    (if natOptTruthy rule.maxLength && s.length > rule.maxLength.getD 0 then
       ["String length is " ++ toString s.length ++ ", maximum is " ++
        toString (rule.maxLength.getD 0)]
     else []) ++
    (match rule.pattern with
     | some p => if !(matchesPattern s p) then ["Value does not match required pattern"] else []
     | none => []) ++
    (match rule.enum with
     | some es =>
        if !(jsIncludes es (Value.str s)) then
          ["Value must be one of: " ++ joinValues ", " es]
        else []
     | none => [])
  else []

/-- Number-specific section of validateValue (guard:
`rule.type === 'number' && typeof value === 'number'`; `min`/`max` use a
presence test `!== undefined`, not truthiness). -/
def numberSection (n : Int) (rule : FieldRule) : List String :=
  if rule.type == some "number" then
    (match rule.min with
     | some m => if n < m then ["Value is " ++ toString n ++ ", minimum is " ++ toString m] else []
     | none => []) ++
    (match rule.max with
     | some m => if n > m then ["Value is " ++ toString n ++ ", maximum is " ++ toString m] else []
     | none => []) ++
    (match rule.enum with
     | some es =>
        if !(jsIncludes es (Value.num n)) then
          ["Value must be one of: " ++ joinValues ", " es]
        else []
     | none => [])
  else []

/-- Boolean-specific section of validateValue (guard:
`rule.type === 'boolean' && typeof value === 'boolean'`). -/
def booleanSection (b : Bool) (rule : FieldRule) : List String :=
  if rule.type == some "boolean" then
    (match rule.enum with
     | some es =>
        if !(jsIncludes es (Value.bool b)) then
          ["Value must be one of: " ++ joinValues ", " es]
        else []
     | none => [])
  else []

/-- Type-specific sections dispatched on the runtime type of the value. -/
def typeSections (value : Value) (rule : FieldRule) : List String :=
  match value with
  | Value.str s => stringSection s rule
  | Value.num n => numberSection n rule
  | Value.bool b => booleanSection b rule
  | _ => []

/-- validateValue from validator.js: notEmpty check (early return), type
check (early return on mismatch), then the type-specific constraint
sections appending in source order. -/
def validateValue (value : Value) (rule : FieldRule) (_key : String) : List String :=
  if rule.notEmpty && isEmpty value then
    ["Value cannot be empty"]
  else if strOptTruthy rule.type && getType value != rule.type.getD "" then
    [wrongTypeMsg (getType value) (rule.type.getD "")]
  else
    typeSections value rule

/-- Schema mirrors a schema object; each field may be absent. -/
structure Schema where
  requiredKeys : Option (List String) := none
  optionalKeys : Option (List String) := none
  rules : Option (List (String × FieldRule)) := none

/-- Lookup of `schema.rules[key]` (a present rule object is truthy). -/
def findRule (rs : List (String × FieldRule)) (k : String) : Option FieldRule :=
  (List.find? (fun p => p.1 == k) rs).map (fun p => p.2)

/-- Issues contributed by one configuration entry inside the main loop of
validateSchema: the unexpected-key warning, then one validation-error
issue per message from validateValue. -/
def entryIssues (schema : Schema) (allAllowedKeys : List String) (hasAllowedList : Bool)
    (entry : String × Value) : List Issue :=
  (if hasAllowedList && !(allAllowedKeys.contains entry.1) then
     [{ key := entry.1, severity := "WARNING",
        message := "Unexpected key not defined in schema", rule := "unexpected_key" }]
   else []) ++
  (match schema.rules with
   | some rs =>
      match findRule rs entry.1 with
      | some rule =>
          (validateValue entry.2 rule entry.1).map
            (fun e => { key := entry.1, severity := "ERROR",
                        message := e, rule := "validation_error" })
      | none => []
   | none => [])

/-- Required-key loop of validateSchema (`if (schema.requiredKeys)`: a
present array is truthy even when empty). -/
def missingKeyIssues (config : Config) (schema : Schema) : List Issue :=
  match schema.requiredKeys with
  | some req =>
      req.filterMap (fun k =>
        if config.any (fun p => p.1 == k) then none
        else some { key := k, severity := "ERROR",
                    message := "Missing required key", rule := "missing_required_key" })
  | none => []

/-- validateSchema from validator.js.  Note that in JS an array is truthy
even when empty, so `hasAllowedList` is `isSome || isSome` and present
empty key lists do form a (closed, empty) allowed set. -/
def validateSchema (config : Config) (schema : Schema) : List Issue :=
  missingKeyIssues config schema ++
    (config.map
      (entryIssues schema (schema.requiredKeys.getD [] ++ schema.optionalKeys.getD [])
        (schema.requiredKeys.isSome || schema.optionalKeys.isSome))).flatten

/-- checkWeakPassword from rules.js. -/
def checkWeakPassword (key : String) (value : Value) : Option Issue :=
  if !(isSuspiciousSecretKey key) then none
  else
    match value with
    | Value.str s =>
        let result := checkPasswordStrength s
        if result.1 then
          some { key := key, severity := "WARNING",
                 message := "Weak password detected: " ++ result.2, rule := "weak_password" }
        else none
    | _ => none

/-- checkHardcodedSecret from rules.js.  A value starting with the
placeholder marker (the dollar sign, with or without a following brace)
is exempted before the content checks. -/
def checkHardcodedSecret (key : String) (value : Value) : Option Issue :=
  match value with
  | Value.str s =>
      if !(isSuspiciousSecretKey key) then none
      else if startsWithStr s "$\x7b" || startsWithStr s "$" then none
      else if s.length > 0 && s != "CHANGE_ME" && s != "YOUR_KEY_HERE" then
        some { key := key, severity := "WARNING",
               message := "Hardcoded secret detected. Use environment variables instead.",
               rule := "hardcoded_secret" }
      else none
  | _ => none

/-- Number coercion `Number(value)` restricted to the string/number
values that pass the typeof guard in checkUnsafePort; `none` is `NaN`.
The string case covers whitespace-trimmed decimal integers (the empty
string coerces to `0`); floats, hex and exponents do not occur in any
validated claim. -/
def toNumberOpt : Value → Option Int
  | Value.num n => some n
  | Value.str s => if trimStr s == "" then some 0 else parseDecInt (trimStr s).toList
  | _ => none

/-- Final range test and issue of checkUnsafePort. -/
def portIssue (key : String) (port : Int) : Option Issue :=
  if 0 < port ∧ port < 1024 then
    some { key := key, severity := "ERROR",
           message := "Unsafe port " ++ toString port ++
             ". Ports below 1024 require elevated privileges and may cause conflicts.",
           rule := "unsafe_port" }
  else none

/-- checkUnsafePort from rules.js. -/
def checkUnsafePort (key : String) (value : Value) : Option Issue :=
  if !(strContains (toLowerStr key) "port") then none
  else
    match value with
    | Value.num n => portIssue key n
    | Value.str s =>
        match toNumberOpt (Value.str s) with
        | some n => portIssue key n
        | none => none
    | _ => none

/-- checkPublicBinding from rules.js. -/
def checkPublicBinding (key : String) (value : Value) : Option Issue :=
  match value with
  | Value.str s =>
      if (strContains (toLowerStr key) "host" || strContains (toLowerStr key) "bind") &&
         (s == "0.0.0.0" || s == "::") then
        some { key := key, severity := "WARNING",
               message := "Public network binding detected. Ensure this is intentional.",
               rule := "public_binding" }
      else none
  | _ => none

/-- checkInsecureProtocol from rules.js. -/
def checkInsecureProtocol (key : String) (value : Value) : Option Issue :=
  match value with
  | Value.str s =>
      if (strContains (toLowerStr key) "url" || strContains (toLowerStr key) "uri") &&
         (startsWithStr s "http://" && !(strContains s "localhost")) then
        some { key := key, severity := "WARNING",
               message := "Insecure HTTP protocol used. Consider using HTTPS.",
               rule := "insecure_protocol" }
      else none
  | _ => none

/-- Strict equality `value === true`. -/
def isTrueVal : Value → Bool
  | Value.bool b => b
  | _ => false

/-- Property access with JS `undefined` (falsy, here `Value.null`) for an
absent key, as consumed by the short-circuit chain below. -/
def envProp (cfg : Config) (nm : String) : Value :=
  (lookupVal cfg nm).getD Value.null

/-- JS logical-or on values: first operand when truthy, else second. -/
def jsOr (a b : Value) : Value :=
  if truthy a then a else b

/-- Resolution `fullConfig.environment || fullConfig.ENV ||
fullConfig.NODE_ENV || ''` from checkDebugInProduction. -/
def resolveEnvRaw (cfg : Config) : Value :=
  jsOr (envProp cfg "environment")
    (jsOr (envProp cfg "ENV")
      (jsOr (envProp cfg "NODE_ENV") (Value.str "")))

/-- checkDebugInProduction from rules.js.  The resolved environment
indicator is lowercased with `.toLowerCase()`, which is a runtime
`TypeError` when the resolved value is a truthy non-string: that is the
engine's only throwing path, modelled as `Except.error`. -/
def checkDebugInProduction (key : String) (value : Value) (fullConfig : Config) :
    Except String (Option Issue) :=
  if toLowerStr key == "debug" && isTrueVal value then
    match resolveEnvRaw fullConfig with
    | Value.str s =>
        if toLowerStr s == "production" || toLowerStr s == "prod" then
          Except.ok (some { key := key, severity := "ERROR",
                            message := "Debug mode enabled in production environment.",
                            rule := "debug_in_production" })
        else Except.ok none
    | _ => Except.error "TypeError"
  else Except.ok none

/-- checkMissingDefaults from rules.js (`value === null || undefined`). -/
def checkMissingDefaults (key : String) (value : Value) : Option Issue :=
  match value with
  | Value.null =>
      some { key := key, severity := "ERROR",
             message := "Configuration key has no value.", rule := "missing_value" }
  | _ => none

/-- applySecurityRules from rules.js: the seven rules in table order,
keeping non-null results.  A throw inside the debug rule aborts the
whole loop (JS exception propagation). -/
def applySecurityRules (key : String) (value : Value) (fullConfig : Config) :
    Except String (List Issue) :=
  match checkDebugInProduction key value fullConfig with
  | Except.error e => Except.error e
  | Except.ok debugIssue =>
      Except.ok (([checkWeakPassword key value,
                   checkHardcodedSecret key value,
                   checkUnsafePort key value,
                   checkPublicBinding key value,
                   checkInsecureProtocol key value,
                   debugIssue,
                   checkMissingDefaults key value]).filterMap id)

/-- Security loop of validateConfiguration over the configuration
entries; the first thrown TypeError propagates. -/
def securityLoop (entries : List (String × Value)) (fullConfig : Config) :
    Except String (List Issue) :=
  match entries with
  | [] => Except.ok []
  | (k, v) :: rest =>
      match applySecurityRules k v fullConfig with
      | Except.error e => Except.error e
      | Except.ok here =>
          match securityLoop rest fullConfig with
          | Except.error e => Except.error e
          | Except.ok more => Except.ok (here ++ more)

/-- Summary mirrors the summary object of the validation result. -/
structure Summary where
  total : Nat
  errorCount : Nat
  warningCount : Nat
deriving DecidableEq, Repr

/-- ValidationResult mirrors the object returned by validateConfiguration. -/
structure ValidationResult where
  isValid : Bool
  issues : List Issue
  errors : List Issue
  warnings : List Issue
  summary : Summary
deriving DecidableEq, Repr

/-- validateConfiguration from validator.js: schema issues, then the
security loop, then partition by severity and build the result. -/
def validateConfiguration (config : Config) (schema : Schema) :
    Except String ValidationResult :=
  let schemaIssues := validateSchema config schema
  match securityLoop config config with
  | Except.error e => Except.error e
  | Except.ok securityIssues =>
      let issues := schemaIssues ++ securityIssues
      let errors := issues.filter (fun i => i.severity == "ERROR")
      let warnings := issues.filter (fun i => i.severity == "WARNING")
      Except.ok { isValid := errors.length == 0,
                  issues := issues,
                  errors := errors,
                  warnings := warnings,
                  summary := { total := issues.length,
                               errorCount := errors.length,
                               warningCount := warnings.length } }

/-- Predicate used to delimit the throwing corner of the engine: the
value of one environment-indicator key, when present, is a string. -/
def envOkAt (cfg : Config) (nm : String) : Bool :=
  match lookupVal cfg nm with
  | some (Value.str _) => true
  | some _ => false
  | none => true

/-- All three environment-indicator keys carry strings when present. -/
def envStringsOnly (cfg : Config) : Bool :=
  envOkAt cfg "environment" && envOkAt cfg "ENV" && envOkAt cfg "NODE_ENV"

/-- Modelled from the spec sentence of claim C3 (the claim as stated):
the environment indicator is the value of the first key among
`environment`, `ENV`, `NODE_ENV` that is PRESENT in the configuration,
the later keys never being consulted. -/
def claimEnvIndicator (cfg : Config) : Option Value :=
  match lookupVal cfg "environment" with
  | some v => some v
  | none =>
      match lookupVal cfg "ENV" with
      | some v => some v
      | none => lookupVal cfg "NODE_ENV"

/-- Modelled from the spec sentence of claim C3 (the claim as stated):
the debug-in-production rule fires exactly when the key is `debug`
case-insensitively, the value is `true`, and the first-present
environment indicator case-insensitively equals production/prod. -/
def specC3Fires (key : String) (value : Value) (cfg : Config) : Bool :=
  toLowerStr key == "debug" && isTrueVal value &&
  (match claimEnvIndicator cfg with
   | some (Value.str s) => toLowerStr s == "production" || toLowerStr s == "prod"
   | some _ => false
   | none => false)

/-- First non-empty string at an environment-indicator key, `none` when
the key is absent, non-string, or the empty string (all falsy for `||`). -/
def nonEmptyStrAt (cfg : Config) (nm : String) : Option String :=
  match lookupVal cfg nm with
  | some (Value.str s) => if s == "" then none else some s
  | _ => none

/-- The environment indicator the code actually uses on string-valued
configurations: the first NON-EMPTY string among `environment`, `ENV`,
`NODE_ENV`, defaulting to the empty string. -/
def amendedEnvIndicator (cfg : Config) : String :=
  (nonEmptyStrAt cfg "environment").getD
    ((nonEmptyStrAt cfg "ENV").getD ((nonEmptyStrAt cfg "NODE_ENV").getD ""))

/-! Structural lemmas about the schema checker's output. -/

/-- Every issue of the required-key loop is a missing-required-key error. -/
lemma mem_missingKeyIssues {i : Issue} {cfg : Config} {sch : Schema}
    (h : i ∈ missingKeyIssues cfg sch) :
    i.rule = "missing_required_key" ∧ i.severity = "ERROR" := by
  obtain ⟨req?, opt?, rules?⟩ := sch
  unfold missingKeyIssues at h
  cases req? with
  | none => cases h
  | some req =>
      obtain ⟨k, _, hk⟩ := List.mem_filterMap.mp h
      by_cases hp : cfg.any (fun p => p.1 == k) = true
      · rw [if_pos hp] at hk; cases hk
      · rw [if_neg hp] at hk
        obtain rfl := Option.some.inj hk
        exact ⟨rfl, rfl⟩

/-- Every issue of the per-entry loop is either the unexpected-key
warning for the entry's key or a validation error for the entry's key. -/
lemma mem_entryIssues {i : Issue} {sch : Schema} {allAllowed : List String}
    {hasAllowed : Bool} {entry : String × Value}
    (h : i ∈ entryIssues sch allAllowed hasAllowed entry) :
    (i.rule = "unexpected_key" ∧ i.severity = "WARNING" ∧ i.key = entry.1) ∨
    (i.rule = "validation_error" ∧ i.severity = "ERROR" ∧ i.key = entry.1) := by
  obtain ⟨req?, opt?, rules?⟩ := sch
  unfold entryIssues at h
  rcases List.mem_append.mp h with h | h
  · left
    by_cases hc : (hasAllowed && !(allAllowed.contains entry.1)) = true
    · rw [if_pos hc] at h
      obtain rfl := List.mem_singleton.mp h
      exact ⟨rfl, rfl, rfl⟩
    · rw [if_neg hc] at h; cases h
  · right
    cases rules? with
    | none => cases h
    | some rs =>
        dsimp only at h
        cases hf : findRule rs entry.1 with
        | none => rw [hf] at h; cases h
        | some rule =>
            rw [hf] at h
            obtain ⟨e, _, rfl⟩ := List.mem_map.mp h
            exact ⟨rfl, rfl, rfl⟩

/-- With no allowed-key list at all, a per-entry issue can only be a
validation error. -/
lemma mem_entryIssues_noAllowed {i : Issue} {sch : Schema} {allAllowed : List String}
    {entry : String × Value}
    (h : i ∈ entryIssues sch allAllowed false entry) :
    i.rule = "validation_error" := by
  obtain ⟨req?, opt?, rules?⟩ := sch
  unfold entryIssues at h
  rcases List.mem_append.mp h with h | h
  · rw [if_neg (by simp)] at h; cases h
  · cases rules? with
    | none => cases h
    | some rs =>
        dsimp only at h
        cases hf : findRule rs entry.1 with
        | none => rw [hf] at h; cases h
        | some rule =>
            rw [hf] at h
            obtain ⟨e, _, rfl⟩ := List.mem_map.mp h
            rfl

/-- Case split for membership in the full schema-checker output. -/
lemma mem_validateSchema {i : Issue} {cfg : Config} {sch : Schema}
    (h : i ∈ validateSchema cfg sch) :
    i ∈ missingKeyIssues cfg sch ∨
    ∃ entry, entry ∈ cfg ∧
      i ∈ entryIssues sch (sch.requiredKeys.getD [] ++ sch.optionalKeys.getD [])
            (sch.requiredKeys.isSome || sch.optionalKeys.isSome) entry := by
  unfold validateSchema at h
  rcases List.mem_append.mp h with h | h
  · exact Or.inl h
  · obtain ⟨l, hl, hi⟩ := List.mem_flatten.mp h
    obtain ⟨entry, he, rfl⟩ := List.mem_map.mp hl
    exact Or.inr ⟨entry, he, hi⟩

/-- A list of validation-error issues never survives the unexpected-key
filter. -/
lemma filter_unexpected_validationIssues (k : String) (msgs : List String) :
    (msgs.map
        (fun e => ({ key := k, severity := "ERROR", message := e,
                     rule := "validation_error" } : Issue))).filter
      (fun i => i.rule == "unexpected_key") = [] := by
  rw [List.filter_eq_nil_iff]
  intro i hi
  obtain ⟨e, _, rfl⟩ := List.mem_map.mp hi
  simp

/-! Claim theorems. -/

/-- Claim C7: on a secret-looking key, a string value beginning with the
dollar sign is exempt from the hardcoded-secret rule whatever its
remaining content. -/
theorem claim_C7 (key s : String)
    (h1 : isSuspiciousSecretKey key = true)
    (h2 : startsWithStr s "$" = true) :
    checkHardcodedSecret key (Value.str s) = none := by
  unfold checkHardcodedSecret
  simp [h1, h2]

/-- Witness for claim C7 at a concrete secret key and placeholder value. -/
theorem claim_C7_witness :
    (isSuspiciousSecretKey "api_key" = true ∧
     startsWithStr "$API_KEY_REF" "$" = true) ∧
    checkHardcodedSecret "api_key" (Value.str "$API_KEY_REF") = none :=
  ⟨⟨by decide, by decide⟩, claim_C7 "api_key" "$API_KEY_REF" (by decide) (by decide)⟩

/-- Claim C8: on a key whose lowered name contains "port", a numeric
value triggers the unsafe-port rule exactly when it lies strictly
between 0 and 1024; in particular 1023 always fires as an ERROR while
1024 and 0 never fire. -/
theorem claim_C8 (key : String) (n : Int)
    (h : strContains (toLowerStr key) "port" = true) :
    ((checkUnsafePort key (Value.num n)).isSome ↔ (0 < n ∧ n < 1024)) ∧
    (∃ i, checkUnsafePort key (Value.num 1023) = some i ∧ i.severity = "ERROR") ∧
    checkUnsafePort key (Value.num 1024) = none ∧
    checkUnsafePort key (Value.num 0) = none := by
  refine ⟨?_, ?_, ?_, ?_⟩
  · by_cases hc : 0 < n ∧ n < 1024 <;> simp [checkUnsafePort, portIssue, h, hc]
  · refine ⟨Issue.mk key "ERROR"
        ("Unsafe port " ++ toString (1023 : Int) ++
          ". Ports below 1024 require elevated privileges and may cause conflicts.")
        "unsafe_port", ?_, rfl⟩
    simp [checkUnsafePort, portIssue, h]
  · simp [checkUnsafePort, portIssue, h]
  · simp [checkUnsafePort, portIssue, h]

/-- Witness for claim C8 at the key "port" and the in-range value 500. -/
theorem claim_C8_witness :
    strContains (toLowerStr "port") "port" = true ∧
    (((checkUnsafePort "port" (Value.num 500)).isSome ↔ (0 < (500 : Int) ∧ (500 : Int) < 1024)) ∧
     (∃ i, checkUnsafePort "port" (Value.num 1023) = some i ∧ i.severity = "ERROR") ∧
     checkUnsafePort "port" (Value.num 1024) = none ∧
     checkUnsafePort "port" (Value.num 0) = none) :=
  ⟨by decide, claim_C8 "port" 500 (by decide)⟩

/-- Claim C10: a schema omitting both key lists entirely performs no
unexpected-key checking: the schema checker's output contains no
unexpected-key issue for any configuration and any rules table. -/
theorem claim_C10 (cfg : Config) (rules : Option (List (String × FieldRule))) :
    (validateSchema cfg
        { requiredKeys := none, optionalKeys := none, rules := rules }).filter
      (fun i => i.rule == "unexpected_key") = [] := by
  rw [List.filter_eq_nil_iff]
  intro i hi
  rcases mem_validateSchema hi with h | ⟨entry, _, h⟩
  · have := (mem_missingKeyIssues h).1
    simp [this]
  · have := mem_entryIssues_noAllowed h
    simp [this]

/-- Claim C1 fails on the code: with both key lists present but empty,
the allowed-key set is a truthy empty array, so the sole key of this
configuration is flagged as unexpected. -/
theorem claim_C1_counterexample :
    validateSchema [("a", Value.str "x")]
      { requiredKeys := some [], optionalKeys := some [], rules := none } =
    [{ key := "a", severity := "WARNING",
       message := "Unexpected key not defined in schema", rule := "unexpected_key" }] := by
  decide

/-- Claim C1 amended: when both key lists are present but empty they form
a closed, empty recognized-key set, and checkSchema emits exactly one
unexpected-key warning for every key present in the configuration, in
configuration order. -/
theorem claim_C1_amended (cfg : Config) (rules : Option (List (String × FieldRule))) :
    ((validateSchema cfg
        { requiredKeys := some [], optionalKeys := some [], rules := rules }).filter
      (fun i => i.rule == "unexpected_key")).map (fun i => i.key) = cfg.map Prod.fst := by
  have hhd : ∀ entry : String × Value,
      ((entryIssues { requiredKeys := some [], optionalKeys := some [], rules := rules }
          [] true entry).filter (fun i => i.rule == "unexpected_key")).map
        (fun i => i.key) = [entry.1] := by
    intro entry
    unfold entryIssues
    cases rules with
    | none => simp
    | some rs =>
        dsimp only
        cases hf : findRule rs entry.1 with
        | none => dsimp only; simp
        | some rule =>
            dsimp only
            simp [List.filter_append, filter_unexpected_validationIssues]
  simp only [validateSchema, missingKeyIssues, List.filterMap_nil, List.nil_append,
    Option.getD_some, Option.isSome_some, Bool.or_self]
  induction cfg with
  | nil => rfl
  | cons hd tl ih =>
      simp only [List.map_cons, List.flatten_cons, List.filter_append, List.map_append,
        ih, hhd, List.singleton_append]

/-- Claim C9: a validation-error issue of the schema checker always names
a key present in the configuration — rules on absent keys never fire. -/
theorem claim_C9 (cfg : Config) (sch : Schema) (i : Issue)
    (h : i ∈ validateSchema cfg sch) (hr : i.rule = "validation_error") :
    i.key ∈ cfg.map Prod.fst := by
  rcases mem_validateSchema h with hm | ⟨entry, he, hent⟩
  · have hm1 := (mem_missingKeyIssues hm).1
    rw [hr] at hm1
    exact absurd hm1 (by decide)
  · rcases mem_entryIssues hent with ⟨hu, _, _⟩ | ⟨_, _, hk⟩
    · rw [hr] at hu
      exact absurd hu (by decide)
    · rw [hk]
      exact List.mem_map.mpr ⟨entry, he, rfl⟩

/-- Witness for claim C9: a rule on the present key "port" yields a
validation error whose key is indeed among the configuration keys. -/
theorem claim_C9_witness :
    (Issue.mk "port" "ERROR" ("Value is " ++ toString (80 : Int) ++ ", minimum is " ++
        toString (1024 : Int)) "validation_error" ∈
      validateSchema [("port", Value.num 80)]
        { rules := some [("port", { type := some "number", min := some 1024 })] }) ∧
    (Issue.mk "port" "ERROR" ("Value is " ++ toString (80 : Int) ++ ", minimum is " ++
        toString (1024 : Int)) "validation_error").key ∈
      ([("port", Value.num 80)] : Config).map Prod.fst :=
  ⟨by decide,
   claim_C9 [("port", Value.num 80)]
     { rules := some [("port", { type := some "number", min := some 1024 })] }
     (Issue.mk "port" "ERROR" ("Value is " ++ toString (80 : Int) ++ ", minimum is " ++
        toString (1024 : Int)) "validation_error")
     (by decide) rfl⟩

/-- The per-entry loop contributes no missing-required-key issue. -/
lemma perEntry_filter_missing (cfg : Config) (sch : Schema)
    (allAllowed : List String) (hasAllowed : Bool) :
    ((cfg.map (entryIssues sch allAllowed hasAllowed)).flatten.filter
      (fun i => i.rule == "missing_required_key")) = [] := by
  rw [List.filter_eq_nil_iff]
  intro i hi
  obtain ⟨l, hl, hmem⟩ := List.mem_flatten.mp hi
  obtain ⟨entry, _, rfl⟩ := List.mem_map.mp hl
  rcases mem_entryIssues hmem with ⟨hr, _, _⟩ | ⟨hr, _, _⟩ <;> simp [hr]

/-- Closed form of the required-key loop as a filter of the key list. -/
lemma missingKeyIssues_eq (cfg : Config) (req : List String)
    (opt? : Option (List String)) (rules? : Option (List (String × FieldRule))) :
    missingKeyIssues cfg { requiredKeys := some req, optionalKeys := opt?, rules := rules? } =
      (req.filter (fun k => !(cfg.any (fun p => p.1 == k)))).map
        (fun k => Issue.mk k "ERROR" "Missing required key" "missing_required_key") := by
  unfold missingKeyIssues
  dsimp only
  induction req with
  | nil => rfl
  | cons hd tl ih =>
      by_cases hp : cfg.any (fun p => p.1 == hd) = true
      · simp [List.filterMap_cons, List.filter_cons, hp, ih]
      · simp [List.filterMap_cons, List.filter_cons, hp, ih]

/-- Claim C5: for schemas whose required-key list is duplicate-free (the
data model's required keys form a set), the number of
missing-required-key issues equals the cardinality of requiredKeys minus
the configuration's key set. -/
theorem claim_C5 (cfg : Config) (sch : Schema)
    (h : (sch.requiredKeys.getD []).Nodup) :
    ((validateSchema cfg sch).filter (fun i => i.rule == "missing_required_key")).length =
      ((sch.requiredKeys.getD []).toFinset \ (cfg.map Prod.fst).toFinset).card := by
  obtain ⟨req?, opt?, rules?⟩ := sch
  unfold validateSchema
  rw [List.filter_append, perEntry_filter_missing, List.append_nil]
  cases req? with
  | none => simp [missingKeyIssues]
  | some req =>
      have hreq : req.Nodup := by simpa using h
      rw [missingKeyIssues_eq, List.filter_map]
      rw [show ((fun i : Issue => i.rule == "missing_required_key") ∘
            (fun k => Issue.mk k "ERROR" "Missing required key" "missing_required_key")) =
          (fun _ => true) from by funext k; simp]
      rw [List.filter_true, List.length_map]
      have hnd : (req.filter (fun k => !(cfg.any (fun p => p.1 == k)))).Nodup :=
        hreq.filter _
      rw [← List.toFinset_card_of_nodup hnd]
      congr 1
      ext x
      simp only [List.mem_toFinset, List.mem_filter, Finset.mem_sdiff, List.any_eq_true,
        beq_iff_eq, Bool.not_eq_true', Bool.eq_false_iff, ne_eq, List.mem_map,
        Option.getD_some]

/-- Witness for claim C5: one of two required keys is present, giving
exactly one missing-required-key issue. -/
theorem claim_C5_witness :
    ((["name", "port"] : List String).Nodup) ∧
    ((validateSchema [("name", Value.str "X")] { requiredKeys := some ["name", "port"] }).filter
        (fun i => i.rule == "missing_required_key")).length =
      ((["name", "port"] : List String).toFinset \
        (([("name", Value.str "X")] : Config).map Prod.fst).toFinset).card :=
  ⟨by decide,
   claim_C5 [("name", Value.str "X")] { requiredKeys := some ["name", "port"] } (by decide)⟩

/-! Severity lemmas: every produced issue is an ERROR or a WARNING. -/

/-- checkWeakPassword only produces warnings. -/
lemma sev_checkWeakPassword {k : String} {v : Value} {i : Issue}
    (h : checkWeakPassword k v = some i) : i.severity = "WARNING" := by
  unfold checkWeakPassword at h
  dsimp only at h
  repeat' split at h
  all_goals first
    | exact Option.noConfusion h
    | (obtain rfl := Option.some.inj h; rfl)

/-- checkHardcodedSecret only produces warnings. -/
lemma sev_checkHardcodedSecret {k : String} {v : Value} {i : Issue}
    (h : checkHardcodedSecret k v = some i) : i.severity = "WARNING" := by
  unfold checkHardcodedSecret at h
  repeat' split at h
  all_goals first
    | exact Option.noConfusion h
    | (obtain rfl := Option.some.inj h; rfl)

/-- checkUnsafePort only produces errors. -/
lemma sev_checkUnsafePort {k : String} {v : Value} {i : Issue}
    (h : checkUnsafePort k v = some i) : i.severity = "ERROR" := by
  unfold checkUnsafePort portIssue at h
  repeat' split at h
  all_goals first
    | exact Option.noConfusion h
    | (obtain rfl := Option.some.inj h; rfl)

/-- checkPublicBinding only produces warnings. -/
lemma sev_checkPublicBinding {k : String} {v : Value} {i : Issue}
    (h : checkPublicBinding k v = some i) : i.severity = "WARNING" := by
  unfold checkPublicBinding at h
  repeat' split at h
  all_goals first
    | exact Option.noConfusion h
    | (obtain rfl := Option.some.inj h; rfl)

/-- checkInsecureProtocol only produces warnings. -/
lemma sev_checkInsecureProtocol {k : String} {v : Value} {i : Issue}
    (h : checkInsecureProtocol k v = some i) : i.severity = "WARNING" := by
  unfold checkInsecureProtocol at h
  repeat' split at h
  all_goals first
    | exact Option.noConfusion h
    | (obtain rfl := Option.some.inj h; rfl)

/-- checkDebugInProduction only produces errors when it returns an issue. -/
lemma sev_checkDebugInProduction {k : String} {v : Value} {cfg : Config} {i : Issue}
    (h : checkDebugInProduction k v cfg = Except.ok (some i)) : i.severity = "ERROR" := by
  unfold checkDebugInProduction at h
  repeat' split at h
  all_goals first
    | exact Except.noConfusion h
    | exact Option.noConfusion (Except.ok.inj h)
    | (obtain rfl := Option.some.inj (Except.ok.inj h); rfl)

/-- checkMissingDefaults only produces errors. -/
lemma sev_checkMissingDefaults {k : String} {v : Value} {i : Issue}
    (h : checkMissingDefaults k v = some i) : i.severity = "ERROR" := by
  unfold checkMissingDefaults at h
  repeat' split at h
  all_goals first
    | exact Option.noConfusion h
    | (obtain rfl := Option.some.inj h; rfl)

/-- Every issue of one security-rule pass is an ERROR or a WARNING. -/
lemma sev_applySecurityRules {k : String} {v : Value} {cfg : Config} {l : List Issue}
    {i : Issue} (h : applySecurityRules k v cfg = Except.ok l) (hi : i ∈ l) :
    i.severity = "ERROR" ∨ i.severity = "WARNING" := by
  unfold applySecurityRules at h
  cases hd : checkDebugInProduction k v cfg with
  | error e => rw [hd] at h; exact Except.noConfusion h
  | ok dbg =>
      rw [hd] at h
      obtain rfl := Except.ok.inj h
      obtain ⟨o, ho, hoi⟩ := List.mem_filterMap.mp hi
      simp only [List.mem_cons, List.not_mem_nil, or_false] at ho
      have hoi' : o = some i := hoi
      rcases ho with rfl | rfl | rfl | rfl | rfl | rfl | rfl
      · exact Or.inr (sev_checkWeakPassword hoi')
      · exact Or.inr (sev_checkHardcodedSecret hoi')
      · exact Or.inl (sev_checkUnsafePort hoi')
      · exact Or.inr (sev_checkPublicBinding hoi')
      · exact Or.inr (sev_checkInsecureProtocol hoi')
      · exact Or.inl (sev_checkDebugInProduction (hd.trans (congrArg Except.ok hoi')))
      · exact Or.inl (sev_checkMissingDefaults hoi')

/-- Every issue of the security loop is an ERROR or a WARNING. -/
lemma sev_securityLoop {entries : List (String × Value)} {cfg : Config} {l : List Issue}
    (h : securityLoop entries cfg = Except.ok l) :
    ∀ i ∈ l, i.severity = "ERROR" ∨ i.severity = "WARNING" := by
  induction entries generalizing l with
  | nil =>
      unfold securityLoop at h
      obtain rfl := Except.ok.inj h
      intro i hi
      cases hi
  | cons hd tl ih =>
      obtain ⟨k, v⟩ := hd
      unfold securityLoop at h
      cases ha : applySecurityRules k v cfg with
      | error e => rw [ha] at h; exact Except.noConfusion h
      | ok here =>
          rw [ha] at h
          cases hs : securityLoop tl cfg with
          | error e => rw [hs] at h; exact Except.noConfusion h
          | ok more =>
              rw [hs] at h
              obtain rfl := Except.ok.inj h
              intro i hi
              rcases List.mem_append.mp hi with hi | hi
              · exact sev_applySecurityRules ha hi
              · exact ih hs i hi

/-- Every issue of the schema checker is an ERROR or a WARNING. -/
lemma sev_validateSchema {cfg : Config} {sch : Schema} {i : Issue}
    (hi : i ∈ validateSchema cfg sch) :
    i.severity = "ERROR" ∨ i.severity = "WARNING" := by
  rcases mem_validateSchema hi with h | ⟨entry, _, h⟩
  · exact Or.inl (mem_missingKeyIssues h).2
  · rcases mem_entryIssues h with ⟨_, hs, _⟩ | ⟨_, hs, _⟩
    · exact Or.inr hs
    · exact Or.inl hs

/-- A list of issues that are each an ERROR or a WARNING splits its
length over the two severity filters. -/
lemma length_filter_sev (l : List Issue)
    (h : ∀ i ∈ l, i.severity = "ERROR" ∨ i.severity = "WARNING") :
    l.length = (l.filter (fun i => i.severity == "ERROR")).length +
               (l.filter (fun i => i.severity == "WARNING")).length := by
  induction l with
  | nil => rfl
  | cons hd tl ih =>
      have hh := h hd (List.mem_cons_self hd tl)
      have ht : ∀ i ∈ tl, i.severity = "ERROR" ∨ i.severity = "WARNING" :=
        fun i hi => h i (List.mem_cons_of_mem hd hi)
      rcases hh with he | hw
      · simp [List.filter_cons, he, ih ht]
        omega
      · simp [List.filter_cons, hw, ih ht]
        omega

/-- Claim C6: a returned validation result is internally coherent —
validity is exactly the absence of errors, the error and warning lists
are the order-preserving severity filters of the issue list, and the
summary total is their sum. -/
theorem claim_C6 (cfg : Config) (sch : Schema) (r : ValidationResult)
    (h : validateConfiguration cfg sch = Except.ok r) :
    (r.isValid = true ↔ r.summary.errorCount = 0) ∧
    r.errors = r.issues.filter (fun i => i.severity == "ERROR") ∧
    r.warnings = r.issues.filter (fun i => i.severity == "WARNING") ∧
    r.summary.total = r.summary.errorCount + r.summary.warningCount := by
  unfold validateConfiguration at h
  cases hs : securityLoop cfg cfg with
  | error e => rw [hs] at h; exact Except.noConfusion h
  | ok sec =>
      rw [hs] at h
      obtain rfl := Except.ok.inj h
      refine ⟨by simp, rfl, rfl, ?_⟩
      have hall : ∀ i ∈ validateSchema cfg sch ++ sec,
          i.severity = "ERROR" ∨ i.severity = "WARNING" := by
        intro i hi
        rcases List.mem_append.mp hi with hi | hi
        · exact sev_validateSchema hi
        · exact sev_securityLoop hs i hi
      exact length_filter_sev _ hall

/-- Witness for claim C6 at the empty configuration and empty schema. -/
theorem claim_C6_witness :
    validateConfiguration [] {} =
      Except.ok { isValid := true, issues := [], errors := [], warnings := [],
                  summary := { total := 0, errorCount := 0, warningCount := 0 } } ∧
    ((({ isValid := true, issues := [], errors := [], warnings := [],
         summary := { total := 0, errorCount := 0, warningCount := 0 } } :
          ValidationResult).isValid = true ↔
      ({ isValid := true, issues := [], errors := [], warnings := [],
         summary := { total := 0, errorCount := 0, warningCount := 0 } } :
          ValidationResult).summary.errorCount = 0) ∧
     ({ isValid := true, issues := [], errors := [], warnings := [],
        summary := { total := 0, errorCount := 0, warningCount := 0 } } :
          ValidationResult).errors =
       (({ isValid := true, issues := [], errors := [], warnings := [],
           summary := { total := 0, errorCount := 0, warningCount := 0 } } :
          ValidationResult)).issues.filter (fun i => i.severity == "ERROR") ∧
     ({ isValid := true, issues := [], errors := [], warnings := [],
        summary := { total := 0, errorCount := 0, warningCount := 0 } } :
          ValidationResult).warnings =
       (({ isValid := true, issues := [], errors := [], warnings := [],
           summary := { total := 0, errorCount := 0, warningCount := 0 } } :
          ValidationResult)).issues.filter (fun i => i.severity == "WARNING") ∧
     ({ isValid := true, issues := [], errors := [], warnings := [],
        summary := { total := 0, errorCount := 0, warningCount := 0 } } :
          ValidationResult).summary.total =
       ({ isValid := true, issues := [], errors := [], warnings := [],
          summary := { total := 0, errorCount := 0, warningCount := 0 } } :
          ValidationResult).summary.errorCount +
       ({ isValid := true, issues := [], errors := [], warnings := [],
          summary := { total := 0, errorCount := 0, warningCount := 0 } } :
          ValidationResult).summary.warningCount) :=
  ⟨rfl,
   claim_C6 [] {}
     { isValid := true, issues := [], errors := [], warnings := [],
       summary := { total := 0, errorCount := 0, warningCount := 0 } } rfl⟩

/-! Lemmas for the environment-indicator resolution of the debug rule. -/

/-- One step of the short-circuit chain: on a key whose value (when
present) is a string, the JS or falls back exactly when the lookup does
not yield a non-empty string. -/
lemma resolveEnv_step (cfg : Config) (nm : String) (rest : Value) (restStr : String)
    (hok : envOkAt cfg nm = true) (hrest : rest = Value.str restStr) :
    jsOr (envProp cfg nm) rest =
      Value.str ((nonEmptyStrAt cfg nm).getD restStr) := by
  unfold envOkAt at hok
  unfold envProp nonEmptyStrAt
  cases hl : lookupVal cfg nm with
  | none =>
      subst hrest
      simp [jsOr, truthy]
  | some v =>
      rw [hl] at hok
      cases v with
      | str s =>
          by_cases hs : s = ""
          · subst hs
            subst hrest
            simp [jsOr, truthy]
          · simp [jsOr, truthy, hs]
      | num n => simp at hok
      | bool b => simp at hok
      | null => simp at hok
      | arr l => simp at hok
      | obj fs => simp at hok

/-- On a configuration whose environment-indicator values are strings,
the code's `||` chain resolves to the first non-empty such string. -/
lemma resolveEnvRaw_eq (cfg : Config) (h : envStringsOnly cfg = true) :
    resolveEnvRaw cfg = Value.str (amendedEnvIndicator cfg) := by
  have h' := h
  unfold envStringsOnly at h'
  simp only [Bool.and_eq_true] at h'
  obtain ⟨⟨h1, h2⟩, h3⟩ := h'
  have t3 := resolveEnv_step cfg "NODE_ENV" (Value.str "") "" h3 rfl
  have t2 := resolveEnv_step cfg "ENV" _ _ h2 t3
  have t1 := resolveEnv_step cfg "environment" _ _ h1 t2
  unfold resolveEnvRaw amendedEnvIndicator
  exact t1

/-- An if-then-else between two ok results is an ok result. -/
lemma ok_of_ite {α : Type} (c : Prop) [Decidable c] (a b : α) :
    ∃ o, (if c then (Except.ok a : Except String α) else Except.ok b) = Except.ok o := by
  by_cases hc : c
  · exact ⟨a, if_pos hc⟩
  · exact ⟨b, if_neg hc⟩

/-- Under string environment indicators, the debug rule cannot throw. -/
lemma checkDebugInProduction_ok (k : String) (v : Value) (cfg : Config)
    (h : envStringsOnly cfg = true) :
    ∃ o, checkDebugInProduction k v cfg = Except.ok o := by
  unfold checkDebugInProduction
  by_cases hg : (toLowerStr k == "debug" && isTrueVal v) = true
  · rw [if_pos hg, resolveEnvRaw_eq cfg h]
    exact ok_of_ite _ _ _
  · rw [if_neg hg]
    exact ⟨none, rfl⟩

/-- Under string environment indicators, one security pass succeeds. -/
lemma applySecurityRules_ok (k : String) (v : Value) (cfg : Config)
    (h : envStringsOnly cfg = true) :
    ∃ l, applySecurityRules k v cfg = Except.ok l := by
  unfold applySecurityRules
  obtain ⟨o, ho⟩ := checkDebugInProduction_ok k v cfg h
  rw [ho]
  exact ⟨_, rfl⟩

/-- Under string environment indicators, the security loop succeeds. -/
lemma securityLoop_ok (entries : List (String × Value)) (cfg : Config)
    (h : envStringsOnly cfg = true) :
    ∃ l, securityLoop entries cfg = Except.ok l := by
  induction entries with
  | nil => exact ⟨[], rfl⟩
  | cons hd tl ih =>
      obtain ⟨k, v⟩ := hd
      obtain ⟨l1, h1⟩ := applySecurityRules_ok k v cfg h
      obtain ⟨l2, h2⟩ := ih
      refine ⟨l1 ++ l2, ?_⟩
      unfold securityLoop
      rw [h1, h2]

/-- Claim C2 fails on the code: a well-formed configuration whose
`environment` value is the number 5 alongside `debug: true` makes the
debug rule call toLowerCase on a number, and validate throws instead of
returning a result. -/
theorem claim_C2_counterexample :
    validateConfiguration [("debug", Value.bool true), ("environment", Value.num 5)] {} =
      Except.error "TypeError" := by
  rfl

/-- Claim C2 amended: validate never throws and returns a full result
provided the environment-indicator keys (environment, ENV, NODE_ENV),
when present, hold string values. -/
theorem claim_C2_amended (cfg : Config) (sch : Schema)
    (h : envStringsOnly cfg = true) :
    ∃ r, validateConfiguration cfg sch = Except.ok r := by
  obtain ⟨l, hl⟩ := securityLoop_ok cfg cfg h
  unfold validateConfiguration
  rw [hl]
  exact ⟨_, rfl⟩

/-- Witness for claim C2 at a configuration with a string environment. -/
theorem claim_C2_witness :
    envStringsOnly [("debug", Value.bool true), ("environment", Value.str "production")] = true ∧
    ∃ r, validateConfiguration
        [("debug", Value.bool true), ("environment", Value.str "production")] {} =
      Except.ok r :=
  ⟨by decide,
   claim_C2_amended [("debug", Value.bool true), ("environment", Value.str "production")] {}
     (by decide)⟩

/-- Strict equality with true holds exactly on the boolean true value. -/
lemma isTrueVal_iff (v : Value) : isTrueVal v = true ↔ v = Value.bool true := by
  cases v <;> simp [isTrueVal]

/-- Claim C3 fails on the code: with `environment` present but holding
the empty string, the `||` chain skips it (empty strings are falsy) and
consults `ENV`, so the rule fires although the first-present indicator
is not production. -/
theorem claim_C3_counterexample :
    specC3Fires "debug" (Value.bool true)
      [("debug", Value.bool true), ("environment", Value.str ""),
       ("ENV", Value.str "production")] = false ∧
    checkDebugInProduction "debug" (Value.bool true)
      [("debug", Value.bool true), ("environment", Value.str ""),
       ("ENV", Value.str "production")] =
      Except.ok (some (Issue.mk "debug" "ERROR"
        "Debug mode enabled in production environment." "debug_in_production")) :=
  ⟨by decide, by rfl⟩

/-- Claim C3 amended: on configurations whose environment-indicator
values are strings, the rule fires exactly when the key is debug
case-insensitively, the value is boolean true, and the first NON-EMPTY
string among environment, ENV, NODE_ENV (empty or absent values fall
through; default empty) lowercases to production or prod. -/
theorem claim_C3_amended (key : String) (value : Value) (cfg : Config)
    (h : envStringsOnly cfg = true) :
    (∃ i, checkDebugInProduction key value cfg = Except.ok (some i)) ↔
    (toLowerStr key = "debug" ∧ value = Value.bool true ∧
     (toLowerStr (amendedEnvIndicator cfg) = "production" ∨
      toLowerStr (amendedEnvIndicator cfg) = "prod")) := by
  unfold checkDebugInProduction
  rw [resolveEnvRaw_eq cfg h]
  by_cases hg : (toLowerStr key == "debug" && isTrueVal value) = true
  · rw [if_pos hg]
    dsimp only
    simp only [Bool.and_eq_true, beq_iff_eq, isTrueVal_iff] at hg
    obtain ⟨hk, hv⟩ := hg
    by_cases hc : (toLowerStr (amendedEnvIndicator cfg) == "production" ||
        toLowerStr (amendedEnvIndicator cfg) == "prod") = true
    · rw [if_pos hc]
      simp only [Bool.or_eq_true, beq_iff_eq] at hc
      constructor
      · intro
        exact ⟨hk, hv, hc⟩
      · intro
        exact ⟨_, rfl⟩
    · rw [if_neg hc]
      simp only [Bool.or_eq_true, beq_iff_eq] at hc
      constructor
      · rintro ⟨i, hi⟩
        exact Option.noConfusion (Except.ok.inj hi)
      · rintro ⟨_, _, hor⟩
        exact absurd hor hc
  · rw [if_neg hg]
    simp only [Bool.and_eq_true, beq_iff_eq, isTrueVal_iff] at hg
    constructor
    · rintro ⟨i, hi⟩
      exact Option.noConfusion (Except.ok.inj hi)
    · rintro ⟨hk, hv, _⟩
      exact absurd ⟨hk, hv⟩ hg

/-- Witness for claim C3: with environment set to the string production
and a debug true value, the rule fires. -/
theorem claim_C3_witness :
    envStringsOnly [("environment", Value.str "production")] = true ∧
    (∃ i, checkDebugInProduction "debug" (Value.bool true)
        [("environment", Value.str "production")] = Except.ok (some i)) :=
  ⟨by decide,
   (claim_C3_amended "debug" (Value.bool true) [("environment", Value.str "production")]
      (by decide)).mpr ⟨by decide, rfl, Or.inl (by decide)⟩⟩

/-- Claim C4 fails on the code: the notEmpty check runs before the type
check, so an empty wrong-typed value yields the emptiness violation, not
the wrong-type one. -/
theorem claim_C4_counterexample :
    validateValue (Value.str "") { notEmpty := true, type := some "number" } "k" =
      ["Value cannot be empty"] ∧
    getType (Value.str "") ≠ "number" ∧
    "Value cannot be empty" ≠ wrongTypeMsg (getType (Value.str "")) "number" :=
  ⟨by decide, by decide, by decide⟩

/-- Claim C4 amended: on a declared (non-empty) type that differs from
the value's classified type, the evaluator returns exactly one
violation — the emptiness message when the notEmpty check fires first,
otherwise the wrong-type message; type-specific constraint violations
never appear. -/
theorem claim_C4_amended (value : Value) (rule : FieldRule) (t k : String)
    (h1 : rule.type = some t) (h2 : t ≠ "") (h3 : getType value ≠ t) :
    validateValue value rule k =
      (if rule.notEmpty && isEmpty value then ["Value cannot be empty"]
       else [wrongTypeMsg (getType value) t]) := by
  unfold validateValue
  by_cases hne : (rule.notEmpty && isEmpty value) = true
  · rw [if_pos hne, if_pos hne]
  · rw [if_neg hne, if_neg hne]
    have hcond : (strOptTruthy rule.type && (getType value != rule.type.getD "")) = true := by
      rw [h1]
      simp [strOptTruthy, h2, h3]
    rw [if_pos hcond, h1]
    rfl

/-- Witness for claim C4 at a number value against a string rule. -/
theorem claim_C4_witness :
    (({ type := some "string" } : FieldRule).type = some "string" ∧
     ("string" : String) ≠ "" ∧ getType (Value.num 3) ≠ "string") ∧
    validateValue (Value.num 3) { type := some "string" } "k" =
      (if ({ type := some "string" } : FieldRule).notEmpty && isEmpty (Value.num 3) then
         ["Value cannot be empty"]
       else [wrongTypeMsg (getType (Value.num 3)) "string"]) :=
  ⟨⟨rfl, by decide, by decide⟩,
   claim_C4_amended (Value.num 3) { type := some "string" } "string" "k" rfl
     (by decide) (by decide)⟩

end CfgLint
